import Mathlib

/-!
Verification of the onprem-llm-rag core against its specification.

Each section shallowly embeds one part of the repository:
RBAC filter construction and retrieval filtering, the reranker client,
the RAG answer orchestration, the hybrid chunking service, the NAS sync
change detector, and the document processing task.  External collaborators
(the vector store, the embedding/reranking/generation services, the
langchain recursive splitter, the filesystem, the relational store) are
modelled as explicit inputs; machine behaviour of the repository code
itself is translated statement by statement from the source.
-/

/-! ## RBAC filter (backend/app/middleware/auth.py and qdrant_service.py) -/

/-- Authenticated user, restricted to the fields the RBAC filter reads. -/
structure RbacUser where
  dept_id : Int
  role_id : Int
deriving Repr, DecidableEq

/-- One `match` condition of the dict produced by `build_qdrant_filter`:
a payload key and the integer value it must equal. -/
structure FieldMatch where
  key : String
  value : Int
deriving Repr, DecidableEq

/-- One `should` group (an OR of match conditions). -/
structure ShouldGroup where
  should : List FieldMatch
deriving Repr, DecidableEq

/-- The dict shape returned by `build_qdrant_filter`: an AND (`must`)
of `should` groups. -/
structure UserFilter where
  must : List ShouldGroup
deriving Repr, DecidableEq

/-- `build_qdrant_filter` from middleware/auth.py: must of two shoulds,
department equal to the user value or 0, role equal to the user value or 0. -/
def build_qdrant_filter (user : RbacUser) : UserFilter :=
  { must :=
      [ { should := [ { key := "dept_id", value := user.dept_id },
                      { key := "dept_id", value := 0 } ] },
        { should := [ { key := "role_id", value := user.role_id },
                      { key := "role_id", value := 0 } ] } ] }

/-- A qdrant `FieldCondition` with a `MatchValue`. -/
structure QFieldCondition where
  key : String
  value : Int
deriving Repr, DecidableEq

/-- A qdrant `Filter` as built by `search_with_filter`: a `must` list whose
elements are nested filters each carrying a `should` list of conditions. -/
structure QdrantFilter where
  must : List (List QFieldCondition)
deriving Repr, DecidableEq

/-- The filter translation inside `QdrantService.search_with_filter`:
reads the values of `user_filter.must[0].should` and `user_filter.must[1].should`
and rebuilds the conditions under the payload keys `department` and `role`.
Indexing a `must` list without exactly two entries raises in Python and is
modelled as `none`. -/
def search_filter_translation (user_filter : UserFilter) : Option QdrantFilter :=
  match user_filter.must with
  | [dept_group, role_group] =>
      some { must :=
        [ dept_group.should.map (fun cond => { key := "department", value := cond.value }),
          role_group.should.map (fun cond => { key := "role", value := cond.value }) ] }
  | _ => none

/-- The access-control part of a stored point payload, under the keys the
retrieval filter conditions name. -/
structure PointPayload where
  department : Int
  role : Int
deriving Repr, DecidableEq

/-- Qdrant `MatchValue` semantics for one field condition against a payload:
the named key must hold exactly the given value; a condition on a key the
payload does not carry never matches. -/
def evalFieldCondition (payload : PointPayload) (cond : QFieldCondition) : Bool :=
  if cond.key = "department" then decide (payload.department = cond.value)
  else if cond.key = "role" then decide (payload.role = cond.value)
  else false

/-- Qdrant filter semantics: every `must` entry holds, where a nested
`should` filter holds when at least one of its conditions matches. -/
def evalQdrantFilter (filter : QdrantFilter) (payload : PointPayload) : Bool :=
  filter.must.all (fun group => group.any (evalFieldCondition payload))

/-- The complete retrieval predicate: the user filter built by
`build_qdrant_filter`, translated by `search_with_filter`, evaluated on a
candidate payload. -/
def rbacAdmits (user : RbacUser) (payload : PointPayload) : Bool :=
  match search_filter_translation (build_qdrant_filter user) with
  | some f => evalQdrantFilter f payload
  | none => false

/-! ## Reranker client (backend/app/services/reranker_client.py) -/

/-- One retrieved document dict as produced by `search_with_filter` and
consumed by the reranker client and the orchestrator. Similarity and
rerank scores are integer-valued in the model; no arithmetic is ever
performed on them by the embedded code. -/
structure RetrievedDoc where
  document_id : Nat
  filename : String
  content : String
  score : Int
  rerank_score : Option Int
deriving Repr, DecidableEq

/-- One entry of the reranker service response `results` list:
an original index and a relevance score. -/
structure RerankItem where
  index : Nat
  relevance_score : Int
deriving Repr, DecidableEq

/-- Outcome of the whole `try` body of `rerank_documents` up to and
including obtaining `result.results`: either the parsed results list, or
any exception (service unreachable, timeout, non-2xx status, malformed
JSON). -/
abbrev RerankCall := Except Unit (List RerankItem)

/-- The index-mapping loop of `rerank_documents`: for each result item in
response order, if its index is in range, append a copy of that document
with `rerank_score` set; out-of-range indices are skipped. -/
def rerankMapBack (documents : List RetrievedDoc) (results : List RerankItem) :
    List RetrievedDoc :=
  results.foldl
    (fun reranked item =>
      if h : item.index < documents.length then
        reranked ++ [{ documents.get ⟨item.index, h⟩ with
                        rerank_score := some item.relevance_score }]
      else reranked)
    []

/-- `rerank_documents` from reranker_client.py, for a list-valued
`documents` argument.  The second component of the result records whether
the reranker collaborator was contacted.  The function itself never
raises: an empty input returns immediately, and every exception of the
`try` body is caught and answered with the original order truncated to
`top_k`. -/
def rerank_documents (query : String) (documents : List RetrievedDoc)
    (call : RerankCall) (top_k : Nat) : Except String (List RetrievedDoc × Bool) :=
  if documents.isEmpty then
    .ok (documents, false)
  else
    match call with
    | .ok results => .ok (rerankMapBack documents results, true)
    | .error _ => .ok (documents.take top_k, true)

/-! ## RAG orchestration (backend/app/services/rag_service.py) -/

/-- A Python value that is either a materialized document list or an
un-awaited coroutine object wrapping the list the coroutine would
produce.  `generate_answer` binds the result of the async
`search_with_filter` without `await`, so the bound value is a coroutine
object, not a list. -/
inductive PyDocs where
  | list : List RetrievedDoc → PyDocs
  | coroutine : List RetrievedDoc → PyDocs
deriving Repr, DecidableEq

/-- Python truthiness: a list is falsy exactly when empty; a coroutine
object is always truthy. -/
def pyTruthy : PyDocs → Bool
  | .list docs => !docs.isEmpty
  | .coroutine _ => true

/-- `rerank_documents` under Python dynamic typing.  On a list the
behaviour is `rerank_documents`.  On a coroutine object the early-return
check does not fire (coroutines are truthy), iterating the argument inside
the `try` raises a TypeError, and the `except` fallback
`documents[:top_k]` raises a TypeError of its own, which propagates. -/
def rerank_documents_py (query : String) (documents : PyDocs)
    (call : RerankCall) (top_k : Nat) : Except String (List RetrievedDoc × Bool) :=
  match documents with
  | .list docs => rerank_documents query docs call top_k
  | .coroutine _ => .error "TypeError: \x27coroutine\x27 object is not subscriptable"

/-- `build_rag_prompt` from rag_service.py. -/
def build_rag_prompt (query : String) (context_documents : List RetrievedDoc) : String :=
  let context_str := String.intercalate "\n\n"
    ((context_documents.enum.map (fun pair =>
      "[Document " ++ toString (pair.1 + 1) ++ ": " ++ pair.2.filename ++ "]\n"
        ++ pair.2.content)))
  "You are a helpful AI assistant for a biotech company. Answer the user\x27s question based ONLY on the provided documents. If the answer cannot be found in the documents, say \"I don\x27t have enough information to answer that question.\"\n\nContext Documents:\n"
    ++ context_str ++ "\n\nUser Question: " ++ query ++ "\n\nAnswer:"

/-- Parsed generation collaborator reply: the generated text and the
total token usage. -/
structure GenReply where
  text : String
  total_tokens : Nat
deriving Repr, DecidableEq

/-- The structured result `generate_answer` returns on success: answer
text, source documents with content truncated to 500 characters, and the
token count.  Latency is wall-clock time and is not modelled. -/
structure RagResponse where
  response : String
  retrieved_documents : List RetrievedDoc
  token_count : Nat
deriving Repr, DecidableEq

/-- The fixed reply of the zero-retrieval short circuit in
`generate_answer`. -/
def no_docs_response : RagResponse :=
  { response := "I couldn\x27t find any relevant documents to answer your question. This might be due to access restrictions or the information not being available in the system."
    retrieved_documents := []
    token_count := 0 }

/-- Observable outcome of one `generate_answer` invocation: the returned
value or the propagated exception, plus whether the generation
collaborator was invoked. -/
structure GenOutcome where
  result : Except String RagResponse
  generationCalled : Bool
deriving Repr

/-- `RAGService.generate_answer` from rag_service.py.  `searchResult` is
the document list the awaited `search_with_filter` coroutine would yield;
`rerankCall` and `genCall` are the collaborator call outcomes.  The source
assigns `retrieved_docs = qdrant_service.search_with_filter(...)` without
`await`, so the bound value is modelled as `PyDocs.coroutine searchResult`
and the subsequent emptiness test sees a truthy coroutine. -/
def generate_answer (query : String) (searchResult : List RetrievedDoc)
    (rerankCall : RerankCall) (genCall : String → Except Unit GenReply)
    (top_k : Nat) : GenOutcome :=
  let retrieved_docs : PyDocs := .coroutine searchResult
  if pyTruthy retrieved_docs = false then
    { result := .ok no_docs_response, generationCalled := false }
  else
    match rerank_documents_py query retrieved_docs rerankCall top_k with
    | .error e => { result := .error e, generationCalled := false }
    | .ok (reranked_docs, _) =>
        let prompt := build_rag_prompt query reranked_docs
        match genCall prompt with
        | .error _ => { result := .error "generation failed", generationCalled := true }
        | .ok reply =>
            { result := .ok
                { response := reply.text.trim
                  retrieved_documents :=
                    reranked_docs.map (fun doc => { doc with content := doc.content.take 500 })
                  token_count := reply.total_tokens }
              generationCalled := true }

/-! ## Hybrid chunking service (services/chunking/chunking_service.py) -/

/-- The separator list `hybrid_chunking` hands to the recursive splitter. -/
def hybrid_separators : List String :=
  ["\n\n\n", "\n\n", "\n", ". ", "。", "！", "？", "! ", "? ", "; ", ", ", " ", ""]

/-- One iteration of the post-processing loop of `hybrid_chunking`: the
state is the emitted chunk list and the accumulation buffer.  A fragment
is absorbed into the buffer when the buffer and the fragment together are
shorter than `min_chunk_size` and some chunk was already emitted;
otherwise the non-empty buffer is flushed and the fragment starts a new
buffer. -/
def hybridMergeStep (min_chunk_size : Nat) (state : List String × String)
    (chunk : String) : List String × String :=
  let (processed_chunks, buffer) := state
  if buffer.length + chunk.length < min_chunk_size ∧ processed_chunks.length > 0 then
    (processed_chunks, buffer ++ " " ++ chunk)
  else
    (if buffer ≠ "" then processed_chunks ++ [buffer] else processed_chunks, chunk)

/-- Step 2 of `hybrid_chunking` (the post-processing at
chunking_service.py lines 143-161): fold the merge step over the splitter
output with `min_chunk_size = chunk_size / 4` (integer division) and flush
the final non-empty buffer. -/
def hybrid_post_process (chunk_size : Nat) (chunks : List String) : List String :=
  let min_chunk_size := chunk_size / 4
  let folded := chunks.foldl (hybridMergeStep min_chunk_size) ([], "")
  if folded.2 ≠ "" then folded.1 ++ [folded.2] else folded.1

/-- `hybrid_chunking`: the langchain `RecursiveCharacterTextSplitter` is
an external library collaborator, passed in as `split` (receiving the
separator list, the text, the chunk size and the overlap); the repository
code contributes the separator list and the post-processing. -/
def hybrid_chunking (split : List String → String → Nat → Nat → List String)
    (text : String) (chunk_size chunk_overlap : Nat) : List String :=
  hybrid_post_process chunk_size (split hybrid_separators text chunk_size chunk_overlap)

/-- The request body of the `/chunk` endpoint.  Pydantic field bounds
(100 ≤ chunk_size ≤ 4000, chunk_overlap ≤ 1000, method a literal) are
checked before the endpoint body runs and are not re-modelled here. -/
structure ChunkRequest where
  text : String
  method : String
  chunk_size : Nat
  chunk_overlap : Nat
deriving Repr, DecidableEq

/-- The response body of the `/chunk` endpoint.  The float-valued
`avg_chunk_length` statistic is not modelled. -/
structure ChunkResponse where
  chunks : List String
  method : String
  chunk_count : Nat
  total_chars : Nat
deriving Repr, DecidableEq

/-- A raised `HTTPException` with status code and detail. -/
structure HTTPException where
  status_code : Nat
  detail : String
deriving Repr, DecidableEq

/-- Python `str(e)` for a starlette `HTTPException`, whose constructor
passes `(status_code, detail)` to `Exception.__init__`, so `str` renders
the argument tuple. -/
def pyStrHTTPException (e : HTTPException) : String :=
  "(" ++ toString e.status_code ++ ", \x27" ++ e.detail ++ "\x27)"

/-- `chunk_endpoint` from chunking_service.py.  The three splitting
strategies delegate to the langchain splitters, passed in as collaborator
functions.  The `try` body raises HTTP 400 on empty or whitespace-only
text; the catch-all `except Exception` clause re-raises every exception
from the body — the explicit 400s included — as HTTP 500 with
`str(e)` as detail. -/
def chunk_endpoint (recursive_split token_split : String → Nat → Nat → List String)
    (hybrid_split : List String → String → Nat → Nat → List String)
    (req : ChunkRequest) : Except HTTPException ChunkResponse :=
  let body : Except HTTPException ChunkResponse :=
    if req.text = "" ∨ req.text.trim = "" then
      .error { status_code := 400, detail := "Empty text provided" }
    else
      let chunked : Except HTTPException (List String) :=
        if req.method = "recursive" then
          .ok (recursive_split req.text req.chunk_size req.chunk_overlap)
        else if req.method = "token" then
          .ok (token_split req.text req.chunk_size req.chunk_overlap)
        else if req.method = "hybrid" then
          .ok (hybrid_chunking hybrid_split req.text req.chunk_size req.chunk_overlap)
        else
          .error { status_code := 400, detail := "Unknown method: " ++ req.method }
      match chunked with
      | .ok chunks =>
          .ok { chunks := chunks, method := req.method,
                chunk_count := chunks.length, total_chars := req.text.length }
      | .error e => .error e
  match body with
  | .ok resp => .ok resp
  | .error e => .error { status_code := 500, detail := pyStrHTTPException e }

/-! ## NAS sync change detector (worker/tasks/nas_sync.py) -/

/-- The fixed allow-list of file extensions. -/
def SUPPORTED_EXTENSIONS : List String :=
  [".pdf", ".docx", ".doc", ".xlsx", ".xls",
   ".pptx", ".ppt", ".tif", ".tiff", ".png", ".jpg", ".jpeg"]

/-- A directory entry under the NAS root: its full path as a component
list, whether it is a regular file, and its extension. -/
structure NasEntry where
  path : List String
  is_file : Bool
  suffix : String
deriving Repr, DecidableEq

/-- The filesystem as seen by the sync task: whether the root path
exists, and the entries `rglob` would enumerate beneath it. -/
structure NasFS where
  root_exists : Bool
  entries : List NasEntry
deriving Repr, DecidableEq

/-- `scan_nas_directory`: when the root does not exist the function logs
an error and returns the empty list — it does not raise; otherwise it
returns the paths of regular files whose lowercased extension is on the
allow-list. -/
def scan_nas_directory (fs : NasFS) : List (List String) :=
  if fs.root_exists = false then []
  else
    (fs.entries.filter
      (fun e => e.is_file && SUPPORTED_EXTENSIONS.contains e.suffix.toLower)).map
      (fun e => e.path)

/-- `Path.relative_to` on component lists: the remainder when the root is
an initial segment of the path, and `none` (the Python call raises
ValueError) otherwise. -/
def relative_to (path root : List String) : Option (List String) :=
  if path.take root.length = root then some (path.drop root.length) else none

/-- Digits of a decimal numeral to a natural number. -/
def decDigitsToNat (s : List Char) : Nat :=
  s.foldl (fun acc c => acc * 10 + (c.toNat - 48)) 0

/-- Python `int()` on a string, restricted to the shapes the sync task
can meet: surrounding whitespace stripped, an optional minus sign, then
at least one decimal digit; anything else raises ValueError, modelled as
`none`. -/
def pyInt (s : String) : Option Int :=
  let t := s.trim
  if t.length ≠ 0 ∧ t.toList.all Char.isDigit then
    some (decDigitsToNat t.toList : Nat)
  else if t.startsWith "-" ∧ (t.drop 1).length ≠ 0 ∧ (t.drop 1).toList.all Char.isDigit then
    some (-(decDigitsToNat (t.drop 1).toList : Nat))
  else none

/-- `extract_access_from_path`: reads dept and role ids from the first
two components of the path relative to the NAS root.  Any ValueError —
from `relative_to` or from `int()` — is caught and answered with the
default pair (1, 1); a two-component path parses only the department and
defaults the role to 1. -/
def extract_access_from_path (file_path nas_root : List String) : Int × Int :=
  match relative_to file_path nas_root with
  | none => (1, 1)
  | some parts =>
    if 3 ≤ parts.length then
      match pyInt (parts.getD 0 ""), pyInt (parts.getD 1 "") with
      | some dept_id, some role_id => (dept_id, role_id)
      | _, _ => (1, 1)
    else if 2 ≤ parts.length then
      match pyInt (parts.getD 0 "") with
      | some dept_id => (dept_id, 1)
      | none => (1, 1)
    else (1, 1)

/-- One queued `process_document.delay` call. -/
structure WorkItem where
  path : List String
  hash : String
  dept_id : Int
  role_id : Int
deriving Repr, DecidableEq

/-- The dict `sync_nas_documents` returns, plus the queued work items. -/
structure SyncResult where
  status : String
  files_scanned : Nat
  files_added : Nat
  files_updated : Nat
  files_unchanged : Nat
  files_failed : Nat
  queued : List WorkItem
deriving Repr, DecidableEq

/-- The per-file loop body of `sync_nas_documents`.  `fileHash` is
`get_file_hash` (`none` when hashing raises, caught per file and counted
as failed); `existing` is the hash map loaded by `load_existing_hashes`.
A file is unchanged when the stored hash equals the computed hash;
otherwise a work item is queued and the file counts as updated when the
stored hash is truthy (present and non-empty) and as added otherwise. -/
def sync_file_step (nas_root : List String)
    (fileHash existing : List String → Option String)
    (acc : SyncResult) (file_path : List String) : SyncResult :=
  match fileHash file_path with
  | none => { acc with files_failed := acc.files_failed + 1 }
  | some file_hash =>
    if existing file_path = some file_hash then
      { acc with files_unchanged := acc.files_unchanged + 1 }
    else
      let ids := extract_access_from_path file_path nas_root
      let acc := { acc with
        queued := acc.queued ++ [({ path := file_path, hash := file_hash,
                                    dept_id := ids.1, role_id := ids.2 } : WorkItem)] }
      match existing file_path with
      | some existing_hash =>
          if existing_hash ≠ "" then { acc with files_updated := acc.files_updated + 1 }
          else { acc with files_added := acc.files_added + 1 }
      | none => { acc with files_added := acc.files_added + 1 }

/-- `sync_nas_documents`: scan the root, load existing hashes, then run
the per-file loop.  Every fallible step inside the task body catches its
own exceptions (scan returns `[]` on a missing root, `load_existing_hashes`
falls back to an empty map, per-file errors only bump the failed counter),
so the task always returns a `completed` result. -/
def sync_nas_documents (fs : NasFS) (nas_root : List String)
    (fileHash existing : List String → Option String) : SyncResult :=
  let files := scan_nas_directory fs
  files.foldl (sync_file_step nas_root fileHash existing)
    { status := "completed", files_scanned := files.length,
      files_added := 0, files_updated := 0, files_unchanged := 0,
      files_failed := 0, queued := [] }

/-! ## Document processing task (worker/tasks/document_processing.py) -/

/-- The observable outcome of one `process_document` task run:
the `status` field of the returned dict, the document row status at the
task boundary, the number of new vector points and chunk rows written,
and whether old points of a re-indexed document were deleted. -/
structure ProcOutcome where
  taskStatus : String
  docStatus : Option String
  newPoints : Nat
  newChunkRows : Nat
  oldDeleted : Bool
deriving Repr, DecidableEq

/-- `process_document`: `existingDoc` is the row id found by content
hash, `extractedText` the (already stripped) result of
`extract_text_async`, `chunks` the result of `chunk_text_async` (empty on
any chunking failure) and `embeddings` the result of
`embed_chunks_async` (empty on any embedding failure).  The document row
is first upserted with status `processing`.  Empty text, zero chunks and
zero embeddings each mark the row failed and return a skipped result.  A
non-empty embedding batch whose length differs from the chunk count
raises RuntimeError, which the outer handler catches, returning a task
dict with status `failed` without running any further statement — in
particular without updating the document row, which stays `processing`,
and without writing points or chunk rows.  Otherwise old points and chunk
rows of a re-indexed document are deleted, one point per (chunk,
embedding) pair is upserted, one chunk row per (chunk, point id) pair is
inserted, and the row is marked `indexed`. -/
def process_document (existingDoc : Option Nat) (extractedText : String)
    (chunks : List String) (embeddings : List (List Int)) : ProcOutcome :=
  if extractedText = "" then
    { taskStatus := "skipped", docStatus := some "failed",
      newPoints := 0, newChunkRows := 0, oldDeleted := false }
  else if chunks.isEmpty then
    { taskStatus := "skipped", docStatus := some "failed",
      newPoints := 0, newChunkRows := 0, oldDeleted := false }
  else if embeddings.isEmpty then
    { taskStatus := "skipped", docStatus := some "failed",
      newPoints := 0, newChunkRows := 0, oldDeleted := false }
  else if embeddings.length ≠ chunks.length then
    { taskStatus := "failed", docStatus := some "processing",
      newPoints := 0, newChunkRows := 0, oldDeleted := false }
  else
    let point_count := (chunks.zip embeddings).length
    { taskStatus := "completed", docStatus := some "indexed",
      newPoints := point_count, newChunkRows := point_count,
      oldDeleted := existingDoc.isSome }

/-! ## Theorems -/

/-- C1: the RBAC retrieval filter admits a candidate point exactly when
(the payload department id equals the user department id or the wildcard 0)
and (the payload role id equals the user role id or the wildcard 0); for a
user with department 5 and role 2, candidates with payload (department 5,
role 2) and (department 0, role 0) are admitted, while (department 9,
role 9) is excluded. -/
theorem rbac_filter_and_of_ors :
    (∀ (user : RbacUser) (payload : PointPayload),
      rbacAdmits user payload = true ↔
        ((payload.department = user.dept_id ∨ payload.department = 0) ∧
         (payload.role = user.role_id ∨ payload.role = 0))) ∧
    rbacAdmits ⟨5, 2⟩ ⟨5, 2⟩ = true ∧
    rbacAdmits ⟨5, 2⟩ ⟨0, 0⟩ = true ∧
    rbacAdmits ⟨5, 2⟩ ⟨9, 9⟩ = false := by
  refine ⟨?_, by decide, by decide, by decide⟩
  intro user payload
  simp [rbacAdmits, build_qdrant_filter, search_filter_translation,
    evalQdrantFilter, evalFieldCondition]

/-- C4: for every query and non-empty candidate list, when the reranker
call raises any exception, `rerank_documents` does not propagate it (the
result is an `ok` value) and returns exactly the first `top_k` candidates
in the original similarity order. -/
theorem rerank_fallback_on_exception (query : String)
    (documents : List RetrievedDoc) (top_k : Nat)
    (hne : documents ≠ []) :
    rerank_documents query documents (.error ()) top_k =
      .ok (documents.take top_k, true) := by
  simp [rerank_documents, hne]

/-- C4 witness: exercised on a concrete two-document list with the call
failing and top_k = 1. -/
theorem rerank_fallback_on_exception_witness :
    rerank_documents "q" [⟨1, "a.pdf", "alpha", 9, none⟩, ⟨2, "b.pdf", "beta", 7, none⟩]
      (.error ()) 1 =
      .ok ([⟨1, "a.pdf", "alpha", 9, none⟩], true) :=
  rerank_fallback_on_exception "q"
    [⟨1, "a.pdf", "alpha", 9, none⟩, ⟨2, "b.pdf", "beta", 7, none⟩] 1 (by simp)

/-- C10: for every query, calling `rerank_documents` with an empty
candidate list returns the empty list immediately and the reranker
collaborator is not contacted. -/
theorem rerank_empty_short_circuit (query : String) (call : RerankCall) (top_k : Nat) :
    rerank_documents query [] call top_k = .ok ([], false) := rfl

/-- C3 (code evaluated at the failing input): because `generate_answer`
binds the async `search_with_filter` without `await`, the zero-retrieval
short circuit never fires; for every query whose retrieval would return
zero chunks the call ends in a propagated TypeError instead of the fixed
no-relevant-documents response.  The generation collaborator is indeed
never invoked. -/
theorem generate_answer_zero_retrieval_raises (query : String)
    (rerankCall : RerankCall) (genCall : String → Except Unit GenReply) (top_k : Nat) :
    generate_answer query [] rerankCall genCall top_k =
      { result := .error "TypeError: \x27coroutine\x27 object is not subscriptable"
        generationCalled := false } ∧
    (generate_answer query [] rerankCall genCall top_k).result ≠ .ok no_docs_response := by
  exact ⟨rfl, by simp [generate_answer, pyTruthy, rerank_documents_py]⟩

set_option maxRecDepth 8192 in
/-- C6 (code evaluated at the failing input): the post-processing flushes
the buffer whenever the buffer plus the NEXT fragment reach the quarter
threshold, so a short fragment followed by a large one is emitted
standalone.  On the splitter output for a small paragraph between two
oversized ones (chunk_size 200, threshold 50), the two-character fragment
survives as the third output chunk, violating the claimed minimum
length for non-first chunks. -/
theorem hybrid_chunking_short_fragment_kept :
    hybrid_chunking
      (fun _ _ _ _ =>
        [String.mk (List.replicate 200 'Y'), String.mk (List.replicate 100 'Y'), "ab",
         String.mk (List.replicate 200 'Z'), String.mk (List.replicate 100 'Z')])
      (String.mk (List.replicate 300 'Y') ++ "\n\nab\n\n" ++ String.mk (List.replicate 300 'Z'))
      200 0 =
      [String.mk (List.replicate 200 'Y'), String.mk (List.replicate 100 'Y'), "ab",
       String.mk (List.replicate 200 'Z'), String.mk (List.replicate 100 'Z')] ∧
    (hybrid_chunking
      (fun _ _ _ _ =>
        [String.mk (List.replicate 200 'Y'), String.mk (List.replicate 100 'Y'), "ab",
         String.mk (List.replicate 200 'Z'), String.mk (List.replicate 100 'Z')])
      (String.mk (List.replicate 300 'Y') ++ "\n\nab\n\n" ++ String.mk (List.replicate 300 'Z'))
      200 0).getD 2 "" = "ab" ∧
    ("ab" : String).length < 200 / 4 := by
  refine ⟨by decide, by decide, by decide⟩

/-- C7 counterexample: the chunking endpoint on the empty input text does
not answer with an empty chunk sequence; the 400 raised by the emptiness
check is re-raised as HTTP 500 by the catch-all handler. -/
theorem chunk_endpoint_empty_text_errors :
    chunk_endpoint (fun _ _ _ => []) (fun _ _ _ => []) (fun _ _ _ _ => [])
      { text := "", method := "hybrid", chunk_size := 1000, chunk_overlap := 200 } =
      .error { status_code := 500, detail := "(400, \x27Empty text provided\x27)" } := rfl

/-- C7 amended: empty or whitespace-only input is rejected with an HTTP
error (400 "Empty text provided", surfaced as 500 by the catch-all
handler) rather than yielding an empty chunk sequence; the hybrid
post-processing itself maps an empty fragment list to an empty chunk
list. -/
theorem chunk_endpoint_whitespace_rejected :
    (∀ (recursive_split token_split : String → Nat → Nat → List String)
       (hybrid_split : List String → String → Nat → Nat → List String)
       (req : ChunkRequest), req.text = "" ∨ req.text.trim = "" →
      chunk_endpoint recursive_split token_split hybrid_split req =
        .error { status_code := 500,
                 detail := pyStrHTTPException
                   { status_code := 400, detail := "Empty text provided" } }) ∧
    (∀ chunk_size, hybrid_post_process chunk_size [] = []) := by
  constructor
  · intro recursive_split token_split hybrid_split req h
    simp only [chunk_endpoint]
    rw [if_pos h]
  · intro chunk_size
    rfl

/-- C7 witness: an empty-text request under a different method is also
rejected with the wrapped error. -/
theorem chunk_endpoint_whitespace_rejected_witness :
    chunk_endpoint (fun _ _ _ => []) (fun _ _ _ => []) (fun _ _ _ _ => [])
      { text := "", method := "recursive", chunk_size := 500, chunk_overlap := 50 } =
      .error { status_code := 500,
               detail := pyStrHTTPException
                 { status_code := 400, detail := "Empty text provided" } } :=
  chunk_endpoint_whitespace_rejected.1 _ _ _ _ (Or.inl rfl)

/-- C5 counterexample: a file directly under the corpus root (too shallow
to carry department and role directories) is assigned the default pair
(1, 1), not the wildcard sentinel pair (0, 0). -/
theorem extract_access_shallow_path_not_wildcard :
    extract_access_from_path ["mnt", "nas", "report.pdf"] ["mnt", "nas"] = (1, 1) ∧
    extract_access_from_path ["mnt", "nas", "report.pdf"] ["mnt", "nas"] ≠
      ((0 : Int), (0 : Int)) := by
  decide

/-- C5 amended: when the relative path has insufficient depth (fewer than
three components), the role id defaults to 1 — never the wildcard 0 —
and a path with at most one component gets the full default pair (1, 1);
a two-component path keeps a parsed department id with role 1. -/
theorem extract_access_default_pair (file_path nas_root parts : List String)
    (hrel : relative_to file_path nas_root = some parts)
    (hlen : parts.length < 3) :
    (extract_access_from_path file_path nas_root).2 = 1 ∧
    (parts.length ≤ 1 → extract_access_from_path file_path nas_root = (1, 1)) := by
  simp only [extract_access_from_path, hrel]
  rw [if_neg (by omega)]
  by_cases h2 : 2 ≤ parts.length
  · rw [if_pos h2]
    constructor
    · cases hp : pyInt (parts.getD 0 "") <;> simp [hp]
    · intro habs
      exact absurd h2 (by omega)
  · rw [if_neg h2]
    exact ⟨rfl, fun _ => rfl⟩

/-- C5 witness: a two-component relative path with a non-numeric first
component also gets role id 1. -/
theorem extract_access_default_pair_witness :
    (extract_access_from_path ["mnt", "nas", "staff", "m.docx"] ["mnt", "nas"]).2 = 1 :=
  (extract_access_default_pair ["mnt", "nas", "staff", "m.docx"] ["mnt", "nas"]
    ["staff", "m.docx"] (by decide) (by decide)).1

/-- Folding the per-file sync step over files whose stored hash matches
their computed hash only bumps the unchanged counter. -/
theorem sync_fold_all_unchanged (nas_root : List String)
    (fileHash existing : List String → Option String)
    (files : List (List String))
    (h : ∀ p ∈ files, ∃ hsh, fileHash p = some hsh ∧ existing p = some hsh)
    (acc : SyncResult) :
    files.foldl (sync_file_step nas_root fileHash existing) acc =
      { acc with files_unchanged := acc.files_unchanged + files.length } := by
  induction files generalizing acc with
  | nil => simp
  | cons p ps ih =>
    obtain ⟨hsh, hfh, hex⟩ := h p (List.mem_cons_self p ps)
    have hstep : sync_file_step nas_root fileHash existing acc p =
        { acc with files_unchanged := acc.files_unchanged + 1 } := by
      simp [sync_file_step, hfh, hex]
    rw [List.foldl_cons, hstep, ih (fun q hq => h q (List.mem_cons_of_mem p hq))]
    have harith : acc.files_unchanged + 1 + ps.length =
        acc.files_unchanged + (p :: ps).length := by
      simp only [List.length_cons]
      omega
    exact congrArg (fun n => { acc with files_unchanged := n } : Nat → SyncResult) harith

/-- C8: when every scanned file carries a hash already recorded for its
path (the unchanged-corpus re-run after full indexing), the sync
classifies every file as unchanged and queues zero work items. -/
theorem sync_unchanged_corpus_no_work (fs : NasFS) (nas_root : List String)
    (fileHash existing : List String → Option String)
    (h : ∀ p ∈ scan_nas_directory fs,
      ∃ hsh, fileHash p = some hsh ∧ existing p = some hsh) :
    (sync_nas_documents fs nas_root fileHash existing).queued = [] ∧
    (sync_nas_documents fs nas_root fileHash existing).files_added = 0 ∧
    (sync_nas_documents fs nas_root fileHash existing).files_updated = 0 ∧
    (sync_nas_documents fs nas_root fileHash existing).files_failed = 0 ∧
    (sync_nas_documents fs nas_root fileHash existing).files_unchanged =
      (scan_nas_directory fs).length := by
  unfold sync_nas_documents
  rw [sync_fold_all_unchanged _ _ _ _ h]
  simp

/-- C8 witness: one indexed file whose stored hash matches yields zero
queued items and one unchanged file. -/
theorem sync_unchanged_corpus_no_work_witness :
    (sync_nas_documents ⟨true, [⟨["mnt", "nas", "5", "2", "a.pdf"], true, ".pdf"⟩]⟩
        ["mnt", "nas"] (fun _ => some "h1") (fun _ => some "h1")).queued = [] ∧
    (sync_nas_documents ⟨true, [⟨["mnt", "nas", "5", "2", "a.pdf"], true, ".pdf"⟩]⟩
        ["mnt", "nas"] (fun _ => some "h1") (fun _ => some "h1")).files_added = 0 ∧
    (sync_nas_documents ⟨true, [⟨["mnt", "nas", "5", "2", "a.pdf"], true, ".pdf"⟩]⟩
        ["mnt", "nas"] (fun _ => some "h1") (fun _ => some "h1")).files_updated = 0 ∧
    (sync_nas_documents ⟨true, [⟨["mnt", "nas", "5", "2", "a.pdf"], true, ".pdf"⟩]⟩
        ["mnt", "nas"] (fun _ => some "h1") (fun _ => some "h1")).files_failed = 0 ∧
    (sync_nas_documents ⟨true, [⟨["mnt", "nas", "5", "2", "a.pdf"], true, ".pdf"⟩]⟩
        ["mnt", "nas"] (fun _ => some "h1") (fun _ => some "h1")).files_unchanged =
      (scan_nas_directory ⟨true, [⟨["mnt", "nas", "5", "2", "a.pdf"], true, ".pdf"⟩]⟩).length :=
  sync_unchanged_corpus_no_work _ _ _ _ (fun _ _ => ⟨"h1", rfl, rfl⟩)

/-- C9 counterexample: with a missing root path the scan returns the
plain empty list and the sync task finishes with status "completed" and
zero counters — no fatal configuration error reaches the caller. -/
theorem scan_missing_root_completes :
    scan_nas_directory ⟨false, [⟨["mnt", "nas", "a.pdf"], true, ".pdf"⟩]⟩ = [] ∧
    sync_nas_documents ⟨false, [⟨["mnt", "nas", "a.pdf"], true, ".pdf"⟩]⟩ ["mnt", "nas"]
      (fun _ => none) (fun _ => none) =
      { status := "completed", files_scanned := 0, files_added := 0, files_updated := 0,
        files_unchanged := 0, files_failed := 0, queued := [] } :=
  ⟨rfl, rfl⟩

/-- C9 amended: an unreadable (non-existent) root path is logged and
swallowed: the scan yields an empty file list and the sync task completes
normally with zero files and zero work items instead of surfacing an
error. -/
theorem sync_missing_root_completes_empty (fs : NasFS) (nas_root : List String)
    (fileHash existing : List String → Option String)
    (h : fs.root_exists = false) :
    scan_nas_directory fs = [] ∧
    sync_nas_documents fs nas_root fileHash existing =
      { status := "completed", files_scanned := 0, files_added := 0, files_updated := 0,
        files_unchanged := 0, files_failed := 0, queued := [] } := by
  have hs : scan_nas_directory fs = [] := by simp [scan_nas_directory, h]
  exact ⟨hs, by simp [sync_nas_documents, hs]⟩

/-- C9 witness: the amended behaviour on a concrete missing-root
filesystem. -/
theorem sync_missing_root_completes_empty_witness :
    scan_nas_directory ⟨false, []⟩ = [] ∧
    sync_nas_documents ⟨false, []⟩ [] (fun _ => some "h") (fun _ => none) =
      { status := "completed", files_scanned := 0, files_added := 0, files_updated := 0,
        files_unchanged := 0, files_failed := 0, queued := [] } :=
  sync_missing_root_completes_empty ⟨false, []⟩ [] (fun _ => some "h") (fun _ => none) rfl

/-- C2 (code evaluated at the failing input): an embedding batch of three
vectors for four chunks makes `process_document` raise, and the outer
handler returns a failed task result having written zero points and zero
chunk rows — but the document row is left with status "processing", not
"failed". -/
theorem process_document_mismatch_leaves_processing :
    process_document (some 7) "extracted text" ["c1", "c2", "c3", "c4"] [[1], [2], [3]] =
      { taskStatus := "failed", docStatus := some "processing",
        newPoints := 0, newChunkRows := 0, oldDeleted := false } ∧
    (process_document (some 7) "extracted text" ["c1", "c2", "c3", "c4"]
      [[1], [2], [3]]).docStatus ≠ some "failed" := by
  exact ⟨rfl, by decide⟩
